import Mathlib

/-
Verification of the SimpleEQ core against its specification.

Shallow embedding of the repository's signal-path state and update logic
(Source/PluginProcessor.h, Source/PluginProcessor.cpp, Source/PluginEditor.cpp).

Modelling conventions:
- C++ `float`/`double` parameter and frequency values are embedded as `ℚ`;
  every claim settled here is structural (state plumbing, equalities of
  installed values), not about floating-point rounding.
- The JUCE library is external to the repository.  Coefficient values produced
  by the library designers are embedded symbolically: a constructor of
  `Coeffs` records exactly the arguments the repository passes to the library
  call, since the library's numeric kernel is not part of this repository.
  Two coefficient values are equal iff the repository requested them with
  identical arguments, which is exactly the granularity the claims need.
- `juce::dsp::ProcessorChain` stores one bypass flag per stage; the model
  keeps each stage's flag next to its coefficients in `FilterStage`.
-/

namespace SimpleEQ

/-- The `Slope` enum from PluginProcessor.h lines 6-11. -/
inductive Slope where
  | Slope_12
  | Slope_24
  | Slope_36
  | Slope_48
deriving DecidableEq

/-- The integer value of a `Slope` enumerator (C++ enums count from 0). -/
def Slope.toNat : Slope → ℕ
  | .Slope_12 => 0
  | .Slope_24 => 1
  | .Slope_36 => 2
  | .Slope_48 => 3

/-- Models `static_cast<Slope>(n)` for the stored choice value; the parameter store
only ever holds 0..3 (the `AudioParameterChoice` has four entries). -/
def Slope.fromRaw : ℕ → Slope
  | 0 => .Slope_12
  | 1 => .Slope_24
  | 2 => .Slope_36
  | _ => .Slope_48

/-- The `ChainSettings` struct from PluginProcessor.h lines 15-20 (field names kept,
including the `preakGainInDecibels` typo). -/
structure ChainSettings where
  peakFreq : ℚ
  preakGainInDecibels : ℚ
  peakQ : ℚ
  lowCutFreq : ℚ
  highCutFreq : ℚ
  lowCutSlope : Slope
  highCutSlope : Slope
deriving DecidableEq

/-- The raw values held by the `AudioProcessorValueTreeState` parameter store:
the five continuous parameters plus the two slope choice indices.  This is the
entire persisted parameter surface (`createParameterLayout`). -/
structure Apvts where
  lowCutFreqRaw : ℚ
  highCutFreqRaw : ℚ
  peakFreqRaw : ℚ
  peakGainRaw : ℚ
  peakQRaw : ℚ
  lowCutSlopeRaw : ℕ
  highCutSlopeRaw : ℕ
deriving DecidableEq

/-- Embeds `getChainSettings` (PluginProcessor.cpp lines 212-225): reads each raw
parameter value out of the store and packs it into a `ChainSettings`,
casting the slope choice indices with `static_cast<Slope>`. -/
def getChainSettings (apvts : Apvts) : ChainSettings :=
  { peakFreq := apvts.peakFreqRaw
    preakGainInDecibels := apvts.peakGainRaw
    peakQ := apvts.peakQRaw
    lowCutFreq := apvts.lowCutFreqRaw
    highCutFreq := apvts.highCutFreqRaw
    lowCutSlope := Slope.fromRaw apvts.lowCutSlopeRaw
    highCutSlope := Slope.fromRaw apvts.highCutSlopeRaw }

/-- Symbolic model of the biquad coefficient values that occur in this
program.  The library design formulas are outside the repository, so a
coefficient set is represented by the call that produced it:
`peakDesign` records the four arguments `makePeakFilter` passes to
`juce::dsp::IIR::Coefficients<float>::makePeakFilter`; `butterworthHP` /
`butterworthLP` record a second-order section of the Butterworth-family
high-pass / low-pass design (frequency, sample rate, total order, section
index); `flat` is a distinguished flat-response (pass-through) set. -/
inductive Coeffs where
  | peakDesign (sampleRate freq q linGain : ℚ)
  | butterworthHP (freq sampleRate : ℚ) (order stageNumber : ℕ)
  | butterworthLP (freq sampleRate : ℚ) (order stageNumber : ℕ)
  | flat
deriving DecidableEq

/-- Value-level result of `updateCoefficients(old, replacements)`
(PluginProcessor.cpp lines 250-252, `*old = *replacements`): afterwards the
stage's coefficient storage holds the replacement contents.  The memory-level
behaviour of the same statement (in-place overwrite of the shared object,
elementary store by elementary store) is modelled separately below by
`updateCoefficientsInPlace` and `liveAfterStores`. -/
def updateCoefficients (old replacements : α) : α :=
  replacements

/-- Embeds `makePeakFilter` (PluginProcessor.cpp lines 227-235): a single
unconditional delegation to the library peak design with the raw settings;
`decibelsToGain` (external, `juce::Decibels::decibelsToGain`) is abstracted
as a function parameter. -/
def makePeakFilter (decibelsToGain : ℚ → ℚ) (chainSettings : ChainSettings)
    (sampleRate : ℚ) : Coeffs :=
  Coeffs.peakDesign sampleRate chainSettings.peakFreq chainSettings.peakQ
    (decibelsToGain chainSettings.preakGainInDecibels)

/-- Modelled from the spec: `makeLowCutFilter` is called by
`updateLowCutFilters` (PluginProcessor.cpp line 257) and by the editor, but
its definition is not among the source files.  Per the spec (§4.1,
`makeLowCutCoefficientSet`) it computes a Butterworth-family high-pass
decomposed into `stageCount` cascaded second-order sections, with total order
2 × stageCount where stageCount = slope + 1; section `i` of the returned
ordered sequence is the `i`-th second-order section of that design.  (The
spec's separate flat-fallback requirement is the property under test in C4
and is therefore not baked into the model.) -/
def makeLowCutFilter (chainSettings : ChainSettings) (sampleRate : ℚ) :
    Fin 4 → Coeffs := fun i =>
  Coeffs.butterworthHP chainSettings.lowCutFreq sampleRate
    (2 * (chainSettings.lowCutSlope.toNat + 1)) i

/-- Modelled from the spec: `makeHighCutFilter` (called at
PluginProcessor.cpp line 267, definition not among the source files); the
low-pass mirror of `makeLowCutFilter`, per spec §4.1. -/
def makeHighCutFilter (chainSettings : ChainSettings) (sampleRate : ℚ) :
    Fin 4 → Coeffs := fun i =>
  Coeffs.butterworthLP chainSettings.highCutFreq sampleRate
    (2 * (chainSettings.highCutSlope.toNat + 1)) i

/-- One `juce::dsp::IIR::Filter` link together with the bypass flag its
enclosing `ProcessorChain` keeps for it.  The per-channel sample history is
owned by the audio thread and plays no part in any claim settled here. -/
structure FilterStage (α : Type) where
  coefficients : α
  bypassed : Bool
deriving DecidableEq

/-- The alias `CutFilter = ProcessorChain<Filter, Filter, Filter, Filter>`
(PluginProcessor.h line 31): four stages addressed by template index 0-3. -/
structure CutFilter (α : Type) where
  s0 : FilterStage α
  s1 : FilterStage α
  s2 : FilterStage α
  s3 : FilterStage α
deriving DecidableEq

/-- Positional access `chain.get<Index>()` for the four cut-filter stages. -/
def CutFilter.stage (c : CutFilter α) : Fin 4 → FilterStage α
  | 0 => c.s0
  | 1 => c.s1
  | 2 => c.s2
  | 3 => c.s3

/-- The four `setBypassed<Index>(true)` calls opening `updateCutFilter`
(PluginProcessor.h lines 122-125). -/
def CutFilter.bypassAll (c : CutFilter α) : CutFilter α :=
  { s0 := { c.s0 with bypassed := true }
    s1 := { c.s1 with bypassed := true }
    s2 := { c.s2 with bypassed := true }
    s3 := { c.s3 with bypassed := true } }

/-- Embeds `update<0>` (PluginProcessor.h lines 107-112): overwrite stage 0's
coefficients with `coefficients[0]`, then `setBypassed<0>(false)`. -/
def updateStage0 (c : CutFilter α) (coefficients : Fin 4 → α) : CutFilter α :=
  { c with s0 := ⟨updateCoefficients c.s0.coefficients (coefficients 0), false⟩ }

/-- Embeds `update<1>`: overwrite stage 1's coefficients, un-bypass stage 1. -/
def updateStage1 (c : CutFilter α) (coefficients : Fin 4 → α) : CutFilter α :=
  { c with s1 := ⟨updateCoefficients c.s1.coefficients (coefficients 1), false⟩ }

/-- Embeds `update<2>`: overwrite stage 2's coefficients, un-bypass stage 2. -/
def updateStage2 (c : CutFilter α) (coefficients : Fin 4 → α) : CutFilter α :=
  { c with s2 := ⟨updateCoefficients c.s2.coefficients (coefficients 2), false⟩ }

/-- Embeds `update<3>`: overwrite stage 3's coefficients, un-bypass stage 3. -/
def updateStage3 (c : CutFilter α) (coefficients : Fin 4 → α) : CutFilter α :=
  { c with s3 := ⟨updateCoefficients c.s3.coefficients (coefficients 3), false⟩ }

/-- Embeds `updateCutFilter` (PluginProcessor.h lines 115-149): bypass all four
stages, then the switch on the slope with case fallthrough — `Slope_48` runs
`update<3>`, `update<2>`, `update<1>`, `update<0>`; `Slope_36` starts at
`update<2>`; `Slope_24` at `update<1>`; `Slope_12` runs only `update<0>`. -/
def updateCutFilter (chain : CutFilter α) (cutCoefficients : Fin 4 → α)
    (slope : Slope) : CutFilter α :=
  let c := chain.bypassAll
  match slope with
  | .Slope_48 =>
      updateStage0 (updateStage1 (updateStage2 (updateStage3 c cutCoefficients)
        cutCoefficients) cutCoefficients) cutCoefficients
  | .Slope_36 =>
      updateStage0 (updateStage1 (updateStage2 c cutCoefficients)
        cutCoefficients) cutCoefficients
  | .Slope_24 =>
      updateStage0 (updateStage1 c cutCoefficients) cutCoefficients
  | .Slope_12 =>
      updateStage0 c cutCoefficients

/-- The alias `MonoChain = ProcessorChain<CutFilter, Filter, CutFilter>`
(PluginProcessor.h line 34), addressed by `ChainPositions`
LowCut / Peak / HighCut. -/
structure MonoChain (α : Type) where
  lowCut : CutFilter α
  peak : FilterStage α
  highCut : CutFilter α
deriving DecidableEq

/-- The three coefficient designers `updateFilters` draws from, bundled so the
chain-update plumbing can be stated for any designers (the program instance is
`theMakers`). -/
structure Makers (α : Type) where
  peak : ChainSettings → ℚ → α
  low : ChainSettings → ℚ → Fin 4 → α
  high : ChainSettings → ℚ → Fin 4 → α

/-- The designers the program actually uses: `makePeakFilter`,
`makeLowCutFilter`, `makeHighCutFilter`, with the external decibel conversion
abstracted. -/
def theMakers (decibelsToGain : ℚ → ℚ) : Makers Coeffs :=
  { peak := makePeakFilter decibelsToGain
    low := makeLowCutFilter
    high := makeHighCutFilter }

/-- Embeds `updateLowCutFilters` (PluginProcessor.cpp lines 255-263): design the
low-cut coefficient set once, then `updateCutFilter` on the left chain's and
the right chain's LowCut position with that one set and slope. -/
def updateLowCutFiltersPair (m : Makers α) (chainSettings : ChainSettings)
    (sampleRate : ℚ) (l r : MonoChain α) : MonoChain α × MonoChain α :=
  let lowCutCoefficients := m.low chainSettings sampleRate
  ({ l with lowCut := updateCutFilter l.lowCut lowCutCoefficients
              chainSettings.lowCutSlope },
   { r with lowCut := updateCutFilter r.lowCut lowCutCoefficients
              chainSettings.lowCutSlope })

/-- Embeds `updatePeakFilter` (PluginProcessor.cpp lines 237-248): design the peak
coefficients once, then `updateCoefficients` on each chain's Peak stage.
No `setBypassed` call is made for the Peak position. -/
def updatePeakFilterPair (m : Makers α) (chainSettings : ChainSettings)
    (sampleRate : ℚ) (l r : MonoChain α) : MonoChain α × MonoChain α :=
  let peakCoefficients := m.peak chainSettings sampleRate
  ({ l with peak := ⟨updateCoefficients l.peak.coefficients peakCoefficients,
              l.peak.bypassed⟩ },
   { r with peak := ⟨updateCoefficients r.peak.coefficients peakCoefficients,
              r.peak.bypassed⟩ })

/-- Embeds `updateHighCutFilters` (PluginProcessor.cpp lines 265-274): the HighCut
mirror of `updateLowCutFiltersPair`. -/
def updateHighCutFiltersPair (m : Makers α) (chainSettings : ChainSettings)
    (sampleRate : ℚ) (l r : MonoChain α) : MonoChain α × MonoChain α :=
  let highCutCoefficients := m.high chainSettings sampleRate
  ({ l with highCut := updateCutFilter l.highCut highCutCoefficients
              chainSettings.highCutSlope },
   { r with highCut := updateCutFilter r.highCut highCutCoefficients
              chainSettings.highCutSlope })

/-- The body of `updateFilters` (PluginProcessor.cpp lines 276-282) after
`getChainSettings`: low-cut update, then peak, then high-cut, each applied to
both chains. -/
def updateFiltersPair (m : Makers α) (chainSettings : ChainSettings)
    (sampleRate : ℚ) (l r : MonoChain α) : MonoChain α × MonoChain α :=
  let p1 := updateLowCutFiltersPair m chainSettings sampleRate l r
  let p2 := updatePeakFilterPair m chainSettings sampleRate p1.1 p1.2
  updateHighCutFiltersPair m chainSettings sampleRate p2.1 p2.2

/-- The net effect of one full update cycle on a single mono chain: low-cut,
peak and high-cut positions each refreshed from the designers.  Proved equal
to the per-component effect of `updateFiltersPair` below. -/
def updateChain (m : Makers α) (chainSettings : ChainSettings)
    (sampleRate : ℚ) (c : MonoChain α) : MonoChain α :=
  { lowCut := updateCutFilter c.lowCut (m.low chainSettings sampleRate)
      chainSettings.lowCutSlope
    peak := ⟨updateCoefficients c.peak.coefficients
      (m.peak chainSettings sampleRate), c.peak.bypassed⟩
    highCut := updateCutFilter c.highCut (m.high chainSettings sampleRate)
      chainSettings.highCutSlope }

/-- The processor state the claims range over: the parameter store, the
host-set sample rate, and the coefficient/bypass state of the two mono
chains (`leftChain`, `rightChain`, PluginProcessor.h line 100).  Sample
histories are not part of any claim. -/
structure ProcessorState (α : Type) where
  apvts : Apvts
  sampleRate : ℚ
  leftChain : MonoChain α
  rightChain : MonoChain α
deriving DecidableEq

/-- Embeds `updateFilters` (PluginProcessor.cpp lines 276-282) at processor level:
read the settings snapshot from the store, then run the three update passes
over both chains. -/
def updateFiltersState (m : Makers α) (st : ProcessorState α) :
    ProcessorState α :=
  let chainSettings := getChainSettings st.apvts
  let p := updateFiltersPair m chainSettings st.sampleRate
    st.leftChain st.rightChain
  { st with leftChain := p.1, rightChain := p.2 }

/-- Coefficient-state effect of `prepareToPlay` (PluginProcessor.cpp lines
86-107): the chains are prepared for the new sample rate (history reset, not
modelled) and `updateFilters` runs. -/
def prepareToPlay (m : Makers α) (sampleRate : ℚ) (st : ProcessorState α) :
    ProcessorState α :=
  updateFiltersState m { st with sampleRate := sampleRate }

/-- Embeds `setStateInformation` (PluginProcessor.cpp lines 198-210):
`ValueTree::readFromData` with the validity test is abstracted as
`parse : β → Option Apvts`; on a valid tree the store is replaced and
`updateFilters` runs; otherwise nothing happens. -/
def setStateInformation (m : Makers α) (parse : β → Option Apvts)
    (st : ProcessorState α) (data : β) : ProcessorState α :=
  match parse data with
  | some tree => updateFiltersState m { st with apvts := tree }
  | none => st

/-- Embeds `block.getSingleChannelBlock(i)`: channel access into the buffer, which
is a sequence of per-channel sample lists; out of range is a contract
violation, modelled as `none`. -/
def getSingleChannelBlock (buffer : List (List ℚ)) (i : ℕ) :
    Option (List ℚ) :=
  buffer[i]?

/-- Embeds `processBlock` (PluginProcessor.cpp lines 141-171): run `updateFilters`,
then unconditionally take channel 0 and channel 1 of the buffer and process
each through the corresponding mono chain (the per-sample IIR recurrence is
external to every claim and abstracted as `runChain`).  The initial loop
clearing output channels beyond the input count touches neither channel 0 nor
channel 1 for the accepted layouts and is omitted.  A buffer without a
channel 1 makes the channel extraction fall outside the buffer: `none`. -/
def processBlock (m : Makers α) (runChain : MonoChain α → List ℚ → List ℚ)
    (st : ProcessorState α) (buffer : List (List ℚ)) :
    Option (ProcessorState α × List (List ℚ)) :=
  let st' := updateFiltersState m st
  match getSingleChannelBlock buffer 0, getSingleChannelBlock buffer 1 with
  | some leftBlock, some rightBlock =>
      some (st', (buffer.set 0 (runChain st'.leftChain leftBlock)).set 1
        (runChain st'.rightChain rightBlock))
  | _, _ => none

/-- The channel sets `isBusesLayoutSupported` distinguishes. -/
inductive ChannelSet where
  | mono
  | stereo
  | other
deriving DecidableEq

/-- A bus layout: the main input and main output channel sets. -/
structure BusesLayout where
  mainInput : ChannelSet
  mainOutput : ChannelSet
deriving DecidableEq

/-- Embeds `isBusesLayoutSupported` (PluginProcessor.cpp lines 116-139): reject an
output set that is neither mono nor stereo; reject input ≠ output; accept the
rest. -/
def isBusesLayoutSupported (layouts : BusesLayout) : Bool :=
  if layouts.mainOutput ≠ ChannelSet.mono
      ∧ layouts.mainOutput ≠ ChannelSet.stereo then
    false
  else if layouts.mainOutput ≠ layouts.mainInput then
    false
  else
    true

/-- The host calls that reach the chains' coefficient state. -/
inductive HostEvent (β : Type) where
  | prepare (sampleRate : ℚ)
  | processCall
  | setState (data : β)

/-- Coefficient-state transition of one host call: `prepareToPlay` and
`processBlock` both run `updateFilters` (the latter before touching the
buffer), `setStateInformation` as modelled above. -/
def stepState (m : Makers α) (parse : β → Option Apvts)
    (st : ProcessorState α) : HostEvent β → ProcessorState α
  | .prepare sampleRate => prepareToPlay m sampleRate st
  | .processCall => updateFiltersState m st
  | .setState data => setStateInformation m parse st data

/-- One live biquad coefficient array as shared storage: five entries
(normalized second-order section). -/
abbrev CoeffArray := Fin 5 → ℚ

/-- A heap of coefficient objects addressed by reference, for the
memory-level reading of `updateCoefficients` (PluginProcessor.cpp lines
250-252): `*old = *replacements` overwrites the object `old` refers to with
the contents of the object `replacements` refers to; no reference is
reseated. -/
structure CoeffHeap where
  store : ℕ → CoeffArray

/-- Memory-level `updateCoefficients`: the object at `oldRef` — the very
object the audio thread's filter stage reads — receives the contents of the
object at `replRef`; every other object is untouched, and the filter's
reference (`oldRef` itself) is not changed by the call. -/
def updateCoefficientsInPlace (h : CoeffHeap) (oldRef replRef : ℕ) :
    CoeffHeap :=
  ⟨fun p => if p = oldRef then h.store replRef else h.store p⟩

/-- The live array as a reader sees it after `k` of the five elementary
stores of the member-wise copy `*old = *replacements` have executed: the
first `k` entries already hold the replacement values, the rest still hold
the old ones.  The copy is an ordinary non-atomic struct assignment, so a
reader may run at any `k`. -/
def liveAfterStores (old new : CoeffArray) (k : ℕ) : CoeffArray :=
  fun i => if (i : ℕ) < k then new i else old i

/-- Magnitude factor one stage contributes to the drawn response curve:
`getMagnitudeForFrequency` (external, abstracted as `magOf`) when the stage
is in the path, 1 when it is bypassed. -/
def stageMagnitudeFactor (magOf : α → ℚ → ℚ → ℚ) (s : FilterStage α)
    (freq sampleRate : ℚ) : ℚ :=
  if s.bypassed then 1 else magOf s.coefficients freq sampleRate

/-- The magnitude the renderer computes at one frequency
(PluginEditor.cpp lines 84-126): start from 1 and, for each of the nine
stages in paint order (Peak, LowCut 0-3, HighCut 0-3), multiply in its
magnitude response unless the stage is bypassed. -/
def paintMagnitude (magOf : α → ℚ → ℚ → ℚ) (c : MonoChain α)
    (freq sampleRate : ℚ) : ℚ :=
  let m0 : ℚ := 1
  let m1 := if c.peak.bypassed then m0
    else m0 * magOf c.peak.coefficients freq sampleRate
  let m2 := if c.lowCut.s0.bypassed then m1
    else m1 * magOf c.lowCut.s0.coefficients freq sampleRate
  let m3 := if c.lowCut.s1.bypassed then m2
    else m2 * magOf c.lowCut.s1.coefficients freq sampleRate
  let m4 := if c.lowCut.s2.bypassed then m3
    else m3 * magOf c.lowCut.s2.coefficients freq sampleRate
  let m5 := if c.lowCut.s3.bypassed then m4
    else m4 * magOf c.lowCut.s3.coefficients freq sampleRate
  let m6 := if c.highCut.s0.bypassed then m5
    else m5 * magOf c.highCut.s0.coefficients freq sampleRate
  let m7 := if c.highCut.s1.bypassed then m6
    else m6 * magOf c.highCut.s1.coefficients freq sampleRate
  let m8 := if c.highCut.s2.bypassed then m7
    else m7 * magOf c.highCut.s2.coefficients freq sampleRate
  let m9 := if c.highCut.s3.bypassed then m8
    else m8 * magOf c.highCut.s3.coefficients freq sampleRate
  m9

/-- The specification's formula: the product over all nine stages of each
stage's magnitude factor, bypassed stages contributing exactly 1. -/
def responseProduct (magOf : α → ℚ → ℚ → ℚ) (c : MonoChain α)
    (freq sampleRate : ℚ) : ℚ :=
  stageMagnitudeFactor magOf c.peak freq sampleRate *
  stageMagnitudeFactor magOf c.lowCut.s0 freq sampleRate *
  stageMagnitudeFactor magOf c.lowCut.s1 freq sampleRate *
  stageMagnitudeFactor magOf c.lowCut.s2 freq sampleRate *
  stageMagnitudeFactor magOf c.lowCut.s3 freq sampleRate *
  stageMagnitudeFactor magOf c.highCut.s0 freq sampleRate *
  stageMagnitudeFactor magOf c.highCut.s1 freq sampleRate *
  stageMagnitudeFactor magOf c.highCut.s2 freq sampleRate *
  stageMagnitudeFactor magOf c.highCut.s3 freq sampleRate

/-- A default-valued parameter store, matching the defaults of
`createParameterLayout` (PluginProcessor.cpp lines 285-324). -/
def defaultApvts : Apvts :=
  { lowCutFreqRaw := 20
    highCutFreqRaw := 20000
    peakFreqRaw := 750
    peakGainRaw := 0
    peakQRaw := 1
    lowCutSlopeRaw := 0
    highCutSlopeRaw := 0 }

/-- A concrete stage used by witnesses (a default-constructed JUCE filter
holds identity coefficients and is not bypassed). -/
def defaultStage : FilterStage Coeffs := ⟨Coeffs.flat, false⟩

/-- A concrete cut chain used by witnesses. -/
def defaultCutFilter : CutFilter Coeffs :=
  ⟨defaultStage, defaultStage, defaultStage, defaultStage⟩

/-- A concrete mono chain used by witnesses. -/
def defaultMonoChain : MonoChain Coeffs :=
  ⟨defaultCutFilter, defaultStage, defaultCutFilter⟩

/-- A concrete processor state used by witnesses. -/
def defaultState : ProcessorState Coeffs :=
  ⟨defaultApvts, 48000, defaultMonoChain, defaultMonoChain⟩

/-- The full update cycle acts on the two chains componentwise: each chain
receives the low-cut, peak and high-cut refresh with the same one-time
designed coefficient sets. -/
theorem updateFiltersPair_eq (m : Makers α) (chainSettings : ChainSettings)
    (sampleRate : ℚ) (l r : MonoChain α) :
    updateFiltersPair m chainSettings sampleRate l r =
      (updateChain m chainSettings sampleRate l,
       updateChain m chainSettings sampleRate r) :=
  rfl

/-- Re-running `updateCutFilter` with the same coefficient set and slope
reproduces the same chain state. -/
theorem updateCutFilter_idem (c : CutFilter α) (cutCoefficients : Fin 4 → α)
    (slope : Slope) :
    updateCutFilter (updateCutFilter c cutCoefficients slope) cutCoefficients
        slope =
      updateCutFilter c cutCoefficients slope := by
  cases slope <;> rfl

/-- Re-running the one-chain update cycle with the same settings and sample
rate reproduces the same chain state. -/
theorem updateChain_idem (m : Makers α) (chainSettings : ChainSettings)
    (sampleRate : ℚ) (c : MonoChain α) :
    updateChain m chainSettings sampleRate
        (updateChain m chainSettings sampleRate c) =
      updateChain m chainSettings sampleRate c := by
  simp [updateChain, updateCoefficients, updateCutFilter_idem]

/-- A full update cycle maps equal chains to equal chains. -/
theorem updateFiltersState_preserves_eq (m : Makers α)
    (st : ProcessorState α) (h : st.leftChain = st.rightChain) :
    (updateFiltersState m st).leftChain =
      (updateFiltersState m st).rightChain := by
  simp [updateFiltersState, updateFiltersPair_eq, h]

/-- Every host call maps a state with equal chains to a state with equal
chains. -/
theorem stepState_preserves_eq (m : Makers α) (parse : β → Option Apvts)
    (st : ProcessorState α) (e : HostEvent β)
    (h : st.leftChain = st.rightChain) :
    (stepState m parse st e).leftChain =
      (stepState m parse st e).rightChain := by
  cases e with
  | prepare sampleRate =>
      exact updateFiltersState_preserves_eq m _ h
  | processCall =>
      exact updateFiltersState_preserves_eq m _ h
  | setState data =>
      simp only [stepState, setStateInformation]
      cases hp : parse data with
      | some tree => exact updateFiltersState_preserves_eq m _ h
      | none => exact h

/-- Chain equality is preserved along any sequence of host calls. -/
theorem foldl_stepState_preserves_eq (m : Makers α)
    (parse : β → Option Apvts) (events : List (HostEvent β)) :
    ∀ st : ProcessorState α, st.leftChain = st.rightChain →
      (events.foldl (stepState m parse) st).leftChain =
        (events.foldl (stepState m parse) st).rightChain := by
  induction events with
  | nil => intro st h; simpa using h
  | cons e es ih =>
      intro st h
      simpa using ih _ (stepState_preserves_eq m parse st e h)

/-- Peeling one multiplication step of the paint loop into a bypass factor. -/
theorem ite_mul_factor (b : Bool) (x m : ℚ) :
    (if b then x else x * m) = x * (if b then 1 else m) := by
  cases b <;> simp

/-- C1: the claim says the control thread never mutates a stage's live
coefficients in place and installs new sets only by an atomic swap, so a
reader never observes a torn mixture.  `updateCoefficients` actually executes
`*old = *replacements`, a non-atomic member-wise overwrite of the shared live
object; a reader running after 2 of the 5 elementary stores of copying
(0,0,0,0,0) over by (1,1,1,1,1) observes (1,1,0,0,0), which is neither the
old nor the new installed set. -/
theorem torn_coefficient_read_cx :
    ¬ (liveAfterStores (fun _ => 0) (fun _ => 1) 2 = (fun _ => (0 : ℚ)) ∨
       liveAfterStores (fun _ => 0) (fun _ => 1) 2 = (fun _ => (1 : ℚ))) := by
  intro h
  rcases h with h | h
  · have h0 := congrFun h 0
    simp [liveAfterStores] at h0
  · have h4 := congrFun h ⟨4, by omega⟩
    simp [liveAfterStores] at h4

/-- C1 (amended): `updateCoefficients` overwrites the live coefficient object
in place — the object the filter stage references receives the replacement
contents while every other object and every reference is untouched — and the
member-wise copy exposes, after `k` of its five elementary stores, a mixture
holding the first `k` new entries and the remaining old ones; only `k = 0`
and `k = 5` are complete sets. -/
theorem updateCoefficients_in_place_not_swap (h : CoeffHeap)
    (oldRef replRef p : ℕ) (old new : CoeffArray) (hp : p ≠ oldRef) :
    (updateCoefficientsInPlace h oldRef replRef).store oldRef =
        h.store replRef ∧
      (updateCoefficientsInPlace h oldRef replRef).store p = h.store p ∧
      liveAfterStores old new 0 = old ∧
      liveAfterStores old new 5 = new ∧
      (∀ k : ℕ, ∀ i : Fin 5, k ≤ (i : ℕ) →
        liveAfterStores old new k i = old i) ∧
      (∀ k : ℕ, ∀ i : Fin 5, (i : ℕ) < k →
        liveAfterStores old new k i = new i) := by
  refine ⟨by simp [updateCoefficientsInPlace], ?_, ?_, ?_, ?_, ?_⟩
  · simp [updateCoefficientsInPlace, hp]
  · funext i
    simp [liveAfterStores]
  · funext i
    simp [liveAfterStores, i.isLt]
  · intro k i hk
    simp [liveAfterStores, Nat.not_lt.mpr hk]
  · intro k i hk
    simp [liveAfterStores, hk]

/-- Witness for the C1 amended theorem at a concrete heap, references and
coefficient arrays. -/
theorem updateCoefficients_in_place_not_swap_witness :
    (updateCoefficientsInPlace ⟨fun _ => fun _ => 3⟩ 0 1).store 0 =
        (⟨fun _ => fun _ => 3⟩ : CoeffHeap).store 1 ∧
      (updateCoefficientsInPlace ⟨fun _ => fun _ => 3⟩ 0 1).store 2 =
        (⟨fun _ => fun _ => 3⟩ : CoeffHeap).store 2 ∧
      liveAfterStores (fun _ => 0) (fun _ => 1) 0 = (fun _ => (0 : ℚ)) ∧
      liveAfterStores (fun _ => 0) (fun _ => 1) 5 = (fun _ => (1 : ℚ)) ∧
      (∀ k : ℕ, ∀ i : Fin 5, k ≤ (i : ℕ) →
        liveAfterStores (fun _ => 0) (fun _ => 1) k i = 0) ∧
      (∀ k : ℕ, ∀ i : Fin 5, (i : ℕ) < k →
        liveAfterStores (fun _ => 0) (fun _ => 1) k i = 1) :=
  updateCoefficients_in_place_not_swap ⟨fun _ => fun _ => 3⟩ 0 1 2
    (fun _ => 0) (fun _ => 1) (by decide)

/-- C2: for every slope `s` and coefficient set, `updateCutFilter` leaves
exactly the stages of index below `s + 1` non-bypassed and holding the
supplied set's coefficient for their index, and every later stage bypassed
(with its previous coefficients untouched). -/
theorem updateCutFilter_first_stages_active (α : Type) (chain : CutFilter α)
    (cutCoefficients : Fin 4 → α) (slope : Slope) (i : Fin 4) :
    (updateCutFilter chain cutCoefficients slope).stage i =
      if (i : ℕ) < slope.toNat + 1 then ⟨cutCoefficients i, false⟩
      else ⟨(chain.stage i).coefficients, true⟩ := by
  cases slope <;> fin_cases i <;> rfl

/-- C3: starting any host-call history (prepareToPlay, processBlock,
setStateInformation) from a state whose two mono chains are equal — as they
are at construction — leaves the left and right chains with identical
coefficients and bypass flags after every completed update cycle; in
particular `processBlock` processes both channels with the two (equal)
components of the updated state. -/
theorem left_right_chains_identical (β : Type) (decibelsToGain : ℚ → ℚ)
    (parse : β → Option Apvts) (events : List (HostEvent β)) (a : Apvts)
    (sampleRate : ℚ) (c : MonoChain Coeffs) :
    (events.foldl (stepState (theMakers decibelsToGain) parse)
        ⟨a, sampleRate, c, c⟩).leftChain =
      (events.foldl (stepState (theMakers decibelsToGain) parse)
        ⟨a, sampleRate, c, c⟩).rightChain :=
  foldl_stepState_preserves_eq (theMakers decibelsToGain) parse events
    ⟨a, sampleRate, c, c⟩ rfl

/-- C4: the claim says invalid parameters (sampleRate ≤ 0 or freq ≥
sampleRate/2) make the designers return a flat pass-through set via an
explicit guard.  At peak frequency 24000 with sample rate 48000 — an invalid
input, 24000 ≥ 48000/2 — `makePeakFilter` does not return the flat set: it
has no guard and hands the raw parameters to the library design. -/
theorem makePeakFilter_no_guard_cx :
    (24000 : ℚ) ≥ 48000 / 2 ∧
      makePeakFilter (fun g => g)
          ⟨24000, 0, 1, 20, 20000, Slope.Slope_12, Slope.Slope_12⟩ 48000 ≠
        Coeffs.flat :=
  ⟨by norm_num, fun h => Coeffs.noConfusion h⟩

/-- C4 (amended): `makePeakFilter` contains no validity guard at all: for
every input, valid or not, it returns exactly the library design's output for
the raw parameters, and never a separately-constructed flat pass-through
set.  Any pass-through behaviour at invalid inputs would be incidental to the
external library, not explicit in this code. -/
theorem makePeakFilter_unconditional_delegation (decibelsToGain : ℚ → ℚ)
    (chainSettings : ChainSettings) (sampleRate : ℚ) :
    makePeakFilter decibelsToGain chainSettings sampleRate =
        Coeffs.peakDesign sampleRate chainSettings.peakFreq
          chainSettings.peakQ
          (decibelsToGain chainSettings.preakGainInDecibels) ∧
      makePeakFilter decibelsToGain chainSettings sampleRate ≠ Coeffs.flat :=
  ⟨rfl, fun h => Coeffs.noConfusion h⟩

/-- C5: the magnitude the renderer computes at any frequency equals the
product over all nine stages (peak, four low-cut, four high-cut) of each
non-bypassed stage's magnitude response there, a bypassed stage contributing
a factor of exactly 1. -/
theorem paintMagnitude_eq_responseProduct (α : Type)
    (magOf : α → ℚ → ℚ → ℚ) (c : MonoChain α) (freq sampleRate : ℚ) :
    paintMagnitude magOf c freq sampleRate =
      responseProduct magOf c freq sampleRate := by
  simp only [paintMagnitude, responseProduct, stageMagnitudeFactor,
    ite_mul_factor]
  ring

/-- C6: running `updateFilters` twice in succession over the same parameter
snapshot and sample rate leaves every coefficient and bypass flag in both
chains exactly as after the first run. -/
theorem updateFilters_idempotent (decibelsToGain : ℚ → ℚ)
    (st : ProcessorState Coeffs) :
    updateFiltersState (theMakers decibelsToGain)
        (updateFiltersState (theMakers decibelsToGain) st) =
      updateFiltersState (theMakers decibelsToGain) st := by
  simp only [updateFiltersState, updateFiltersPair_eq]
  simp [updateChain_idem]

/-- C7: the coefficient designers are deterministic: identical settings and
sample rates give identical (bit-identical in the model) coefficient sets for
the peak and both cut designers, and identical stores give identical
settings snapshots; the functions read nothing but their arguments. -/
theorem designers_deterministic (decibelsToGain : ℚ → ℚ)
    (cs1 cs2 : ChainSettings) (sr1 sr2 : ℚ) (a1 a2 : Apvts)
    (hcs : cs1 = cs2) (hsr : sr1 = sr2) (ha : a1 = a2) :
    makePeakFilter decibelsToGain cs1 sr1 =
        makePeakFilter decibelsToGain cs2 sr2 ∧
      makeLowCutFilter cs1 sr1 = makeLowCutFilter cs2 sr2 ∧
      makeHighCutFilter cs1 sr1 = makeHighCutFilter cs2 sr2 ∧
      getChainSettings a1 = getChainSettings a2 := by
  subst hcs
  subst hsr
  subst ha
  exact ⟨rfl, rfl, rfl, rfl⟩

/-- Witness for C7 at a concrete settings snapshot, sample rate and store. -/
theorem designers_deterministic_witness :
    makePeakFilter (fun g => g) (getChainSettings defaultApvts) 48000 =
        makePeakFilter (fun g => g) (getChainSettings defaultApvts) 48000 ∧
      makeLowCutFilter (getChainSettings defaultApvts) 48000 =
          makeLowCutFilter (getChainSettings defaultApvts) 48000 ∧
      makeHighCutFilter (getChainSettings defaultApvts) 48000 =
          makeHighCutFilter (getChainSettings defaultApvts) 48000 ∧
      getChainSettings defaultApvts = getChainSettings defaultApvts :=
  designers_deterministic (fun g => g) (getChainSettings defaultApvts)
    (getChainSettings defaultApvts) 48000 48000 defaultApvts defaultApvts
    rfl rfl rfl

/-- C8: restoring persisted state that parses to a valid tree installs the
restored parameter values and, within the same call — hence before any later
`processBlock` — performs one full coefficient update (low-cut, peak and
high-cut, on both chains) from the restored settings. -/
theorem setStateInformation_valid_restores_then_updates (β : Type)
    (decibelsToGain : ℚ → ℚ) (parse : β → Option Apvts)
    (st : ProcessorState Coeffs) (data : β) (tree : Apvts)
    (hparse : parse data = some tree) :
    setStateInformation (theMakers decibelsToGain) parse st data =
      { st with
          apvts := tree
          leftChain := updateChain (theMakers decibelsToGain)
            (getChainSettings tree) st.sampleRate st.leftChain
          rightChain := updateChain (theMakers decibelsToGain)
            (getChainSettings tree) st.sampleRate st.rightChain } := by
  simp [setStateInformation, hparse, updateFiltersState, updateFiltersPair_eq]

/-- Witness for C8 at a concrete parser, state and payload. -/
theorem setStateInformation_valid_restores_then_updates_witness :
    setStateInformation (theMakers (fun g => g))
        (fun _ : ℕ => some defaultApvts) defaultState 0 =
      { defaultState with
          apvts := defaultApvts
          leftChain := updateChain (theMakers (fun g => g))
            (getChainSettings defaultApvts) defaultState.sampleRate
            defaultState.leftChain
          rightChain := updateChain (theMakers (fun g => g))
            (getChainSettings defaultApvts) defaultState.sampleRate
            defaultState.rightChain } :=
  setStateInformation_valid_restores_then_updates ℕ (fun g => g)
    (fun _ => some defaultApvts) defaultState 0 defaultApvts rfl

/-- C9: restoring from a byte sequence that does not parse to a valid tree
leaves the parameter store and every coefficient and bypass flag of both
chains unchanged: the call is a no-op. -/
theorem setStateInformation_invalid_is_noop (α β : Type) (m : Makers α)
    (parse : β → Option Apvts) (st : ProcessorState α) (data : β)
    (hparse : parse data = none) :
    setStateInformation m parse st data = st := by
  simp [setStateInformation, hparse]

/-- Witness for C9 at a concrete failing parser and state. -/
theorem setStateInformation_invalid_is_noop_witness :
    setStateInformation (theMakers (fun g => g)) (fun _ : ℕ => none)
        defaultState 0 =
      defaultState :=
  setStateInformation_invalid_is_noop Coeffs ℕ (theMakers (fun g => g))
    (fun _ => none) defaultState 0 rfl

/-- C10: `isBusesLayoutSupported` accepts the mono/mono layout, yet
`processBlock` unconditionally extracts both channel 0 and channel 1: on a
one-channel buffer the channel-1 access falls outside the buffer and the call
has no defined result, while any buffer with at least two channels is
processed; `processBlock` is well-defined exactly under the two-channel
precondition. -/
theorem processBlock_two_channel_contract (α : Type) (m : Makers α)
    (runChain : MonoChain α → List ℚ → List ℚ) (st : ProcessorState α)
    (buffer : List (List ℚ)) :
    isBusesLayoutSupported ⟨ChannelSet.mono, ChannelSet.mono⟩ = true ∧
      (buffer.length = 1 → getSingleChannelBlock buffer 1 = none) ∧
      (buffer.length = 1 → processBlock m runChain st buffer = none) ∧
      (2 ≤ buffer.length →
        (processBlock m runChain st buffer).isSome = true) := by
  refine ⟨rfl, ?_, ?_, ?_⟩
  · intro hlen
    exact List.getElem?_eq_none (by omega)
  · intro hlen
    have h1 : buffer[1]? = none := List.getElem?_eq_none (by omega)
    cases h0 : buffer[0]? <;>
      simp [processBlock, getSingleChannelBlock, h0, h1]
  · intro hlen
    have h0 : buffer[0]? = some (buffer.get ⟨0, by omega⟩) :=
      List.getElem?_eq_getElem (by omega)
    have h1 : buffer[1]? = some (buffer.get ⟨1, by omega⟩) :=
      List.getElem?_eq_getElem (by omega)
    simp [processBlock, getSingleChannelBlock, h0, h1]

/-- Witness for C10 at concrete one-channel and two-channel buffers. -/
theorem processBlock_two_channel_contract_witness :
    isBusesLayoutSupported ⟨ChannelSet.mono, ChannelSet.mono⟩ = true ∧
      getSingleChannelBlock [[(0 : ℚ)]] 1 = none ∧
      processBlock (theMakers (fun g => g)) (fun _ l => l) defaultState
          [[0]] =
        none ∧
      (processBlock (theMakers (fun g => g)) (fun _ l => l) defaultState
          [[0], [0]]).isSome = true :=
  ⟨(processBlock_two_channel_contract Coeffs (theMakers (fun g => g))
      (fun _ l => l) defaultState [[0]]).1,
   (processBlock_two_channel_contract Coeffs (theMakers (fun g => g))
      (fun _ l => l) defaultState [[0]]).2.1 rfl,
   (processBlock_two_channel_contract Coeffs (theMakers (fun g => g))
      (fun _ l => l) defaultState [[0]]).2.2.1 rfl,
   (processBlock_two_channel_contract Coeffs (theMakers (fun g => g))
      (fun _ l => l) defaultState [[0], [0]]).2.2.2 (by norm_num)⟩

end SimpleEQ
